import Mathlib

/-!
# Exsel-Frontend — verification of the detection-to-record pipeline

Shallow embedding of the detection pipeline of the Exsel-Frontend
repository: vehicle classification, dimension estimation, region
filtering, plate-pattern extraction, fine computation, the challan
record's payment transition, the statistics aggregator, and the capture
session's processing guard.  TypeScript `number` values are modelled as
rationals (`ℚ`); the Firestore collection is modelled as an association
list keyed by document id; timestamps are modelled as naturals.
-/

namespace Exsel

/-! ## Vehicle classifier (`classifyVehicleType`, vehicleDetection utils) -/

/-- The five vehicle-type tags the classifier can return. -/
inductive VehicleType where
  | Motorcycle
  | Car
  | Van
  | Bus
  | Truck
deriving DecidableEq, Repr

/-- Real-world dimension estimate `{width, height, length}` in meters. -/
structure Dimensions where
  width : ℚ
  height : ℚ
  length : ℚ
deriving DecidableEq, Repr

/-- Embedding of `classifyVehicleType` (vehicleDetection utils): ordered
threshold rules over the dimensions (the source's `&&`-chains of strict
comparisons), first match wins, `Truck` as the final `else`. -/
def classifyVehicleType (d : Dimensions) : VehicleType :=
  if decide (d.width < 1.3) && decide (d.length < 2.5) then .Motorcycle
  else if decide (d.width < 2.0) && decide (d.height < 1.8) && decide (d.length < 5.0) then .Car
  else if decide (d.width < 2.3) && decide (d.height < 2.5) && decide (d.length < 6.0) then .Van
  else if decide (d.width < 2.6) && decide (d.height < 3.5) && decide (d.length < 12.0) then .Bus
  else .Truck

/-- First-match evaluation of an ordered rule list with a default tag. -/
def firstMatch (dflt : VehicleType) : List ((Dimensions → Bool) × VehicleType) → Dimensions → VehicleType
  | [], _ => dflt
  | (p, v) :: rest, d => if p d then v else firstMatch dflt rest d

/-- The classifier's four guarded rules, in source order. -/
def classifyRules : List ((Dimensions → Bool) × VehicleType) :=
  [ (fun d => decide (d.width < 1.3) && decide (d.length < 2.5), .Motorcycle),
    (fun d => decide (d.width < 2.0) && decide (d.height < 1.8) && decide (d.length < 5.0), .Car),
    (fun d => decide (d.width < 2.3) && decide (d.height < 2.5) && decide (d.length < 6.0), .Van),
    (fun d => decide (d.width < 2.6) && decide (d.height < 3.5) && decide (d.length < 12.0), .Bus) ]

/-- C1: the classifier is a total function into the five tags, equal to
first-match evaluation of the ordered rule list with default `Truck`;
at the boundary, `width = 1.3` is never `Motorcycle`, while
`width = 1.29999` with `length < 2.5` is. -/
theorem classifyVehicleType_ordered_rules (d : Dimensions) :
    classifyVehicleType d = firstMatch .Truck classifyRules d ∧
    (d.width = 1.3 → classifyVehicleType d ≠ .Motorcycle) ∧
    (d.width = 1.29999 → d.length < 2.5 → classifyVehicleType d = .Motorcycle) := by
  refine ⟨rfl, ?_, ?_⟩
  · intro hw
    simp only [classifyVehicleType, hw, Bool.and_eq_true, decide_eq_true_eq]
    norm_num
    split_ifs <;> simp
  · intro hw hl
    have h1 : d.width < 1.3 := by rw [hw]; norm_num
    simp only [classifyVehicleType, Bool.and_eq_true, decide_eq_true_eq]
    rw [if_pos ⟨h1, hl⟩]

/-- Witness for C1 at concrete boundary inputs. -/
theorem classifyVehicleType_ordered_rules_witness :
    classifyVehicleType ⟨1.3, 1, 2⟩ ≠ .Motorcycle ∧
    classifyVehicleType ⟨1.29999, 1, 2⟩ = .Motorcycle :=
  ⟨(classifyVehicleType_ordered_rules ⟨1.3, 1, 2⟩).2.1 rfl,
   (classifyVehicleType_ordered_rules ⟨1.29999, 1, 2⟩).2.2 rfl (by norm_num)⟩

/-! ## Dimension estimator (`calculateVehicleDimensions`, vehicleDetection utils) -/

/-- Camera calibration parameters `{focalLength, sensorWidth, distance}`. -/
structure CameraParameters where
  focalLength : ℚ
  sensorWidth : ℚ
  distance : ℚ
deriving DecidableEq, Repr

/-- Pixel-space bounding box of a detected vehicle (only `width` and
`height` are read by the estimator, as in the source). -/
structure BoundingBox where
  width : ℚ
  height : ℚ
deriving DecidableEq, Repr

/-- Embedding of `calculateVehicleDimensions`: similar-triangles width and
height, and a fixed `* 2.5` length heuristic. -/
def calculateVehicleDimensions (boundingBox : BoundingBox) (cameraParams : CameraParameters) : Dimensions :=
  let realWidth := boundingBox.width * cameraParams.distance / cameraParams.focalLength
  let realHeight := boundingBox.height * cameraParams.distance / cameraParams.focalLength
  let estimatedLength := realWidth * 2.5
  { width := realWidth, height := realHeight, length := estimatedLength }

/-- C8: the estimator is the pure function
`realWidth = pixelWidth * distance / focalLength`,
`realHeight = pixelHeight * distance / focalLength`,
`length = realWidth * 2.5`, and doubling `pixelWidth` with the camera
parameters fixed exactly doubles `realWidth`. -/
theorem calculateVehicleDimensions_formula_scale (b : BoundingBox) (p : CameraParameters) :
    (calculateVehicleDimensions b p).width = b.width * p.distance / p.focalLength ∧
    (calculateVehicleDimensions b p).height = b.height * p.distance / p.focalLength ∧
    (calculateVehicleDimensions b p).length = (calculateVehicleDimensions b p).width * 2.5 ∧
    (calculateVehicleDimensions { b with width := 2 * b.width } p).width =
      2 * (calculateVehicleDimensions b p).width := by
  refine ⟨rfl, rfl, rfl, ?_⟩
  simp only [calculateVehicleDimensions]
  ring

/-- C10: the estimator never reads `sensorWidth`: two camera-parameter
sets agreeing on `focalLength` and `distance` give identical output. -/
theorem calculateVehicleDimensions_sensorWidth_independent
    (b : BoundingBox) (p q : CameraParameters)
    (hf : p.focalLength = q.focalLength) (hd : p.distance = q.distance) :
    calculateVehicleDimensions b p = calculateVehicleDimensions b q := by
  simp only [calculateVehicleDimensions, hf, hd]

/-- Witness for C10: parameter sets differing only in `sensorWidth`. -/
theorem calculateVehicleDimensions_sensorWidth_independent_witness :
    calculateVehicleDimensions ⟨200, 100⟩ ⟨35, 23.5, 10000⟩ =
      calculateVehicleDimensions ⟨200, 100⟩ ⟨35, 1000, 10000⟩ :=
  calculateVehicleDimensions_sensorWidth_independent ⟨200, 100⟩ ⟨35, 23.5, 10000⟩
    ⟨35, 1000, 10000⟩ rfl rfl

/-! ## Region detector (`detectVehicles`, vehicleDetection utils)

The pixel-level work (grayscale, blur, Canny, `findContours`) is the
external vision capability; the embedding starts from its output: a list
of contours, each with its `contourArea` and `boundingRect`. -/

/-- A contour's bounding rectangle, as returned by `boundingRect`. -/
structure Rect where
  x : ℚ
  y : ℚ
  width : ℚ
  height : ℚ
deriving DecidableEq, Repr

/-- One contour as seen by the filter loop: its area and bounding rect. -/
structure ContourData where
  area : ℚ
  rect : Rect
deriving DecidableEq, Repr

/-- A detected vehicle candidate region, as pushed by `detectVehicles`. -/
structure Region where
  x : ℚ
  y : ℚ
  width : ℚ
  height : ℚ
  area : ℚ
deriving DecidableEq, Repr

/-- The filter applied to each contour in `detectVehicles`: keep when
`area > 1000` and the aspect ratio is strictly between `0.5` and `2.5`. -/
def keepVehicle (c : ContourData) : Bool :=
  decide (c.area > 1000) &&
    (let aspectRatio := c.rect.width / c.rect.height
     decide (aspectRatio > 0.5) && decide (aspectRatio < 2.5))

/-- Embedding of the contour-filter loop of `detectVehicles`. -/
def detectVehicles (contours : List ContourData) : List Region :=
  (contours.filter keepVehicle).map
    (fun c => { x := c.rect.x, y := c.rect.y, width := c.rect.width,
                height := c.rect.height, area := c.area })

/-- The C6 claim as stated: a contour is kept iff `area > 1000` and the
aspect ratio lies in the closed interval `[0.5, 2.5]`. -/
def regionKeepClosedBounds : Prop :=
  ∀ c : ContourData,
    keepVehicle c = true ↔
      (c.area > 1000 ∧ 0.5 ≤ c.rect.width / c.rect.height ∧ c.rect.width / c.rect.height ≤ 2.5)

/-- Counterexample to C6 as stated: a contour of area 2000 with aspect
ratio exactly `0.5` (width 20, height 40) satisfies the claimed closed
bounds but `detectVehicles` drops it. -/
theorem detectVehicles_boundary_ratio_dropped :
    ¬ regionKeepClosedBounds := by
  intro h
  have h20 : keepVehicle ⟨2000, ⟨0, 0, 20, 40⟩⟩ = true := by
    rw [h ⟨2000, ⟨0, 0, 20, 40⟩⟩]
    norm_num
  have : keepVehicle ⟨2000, ⟨0, 0, 20, 40⟩⟩ = false := by
    simp only [keepVehicle]
    norm_num
  rw [this] at h20
  exact Bool.false_ne_true h20

/-- C6 amended: a contour is kept iff `area > 1000` and the aspect ratio
lies strictly between `0.5` and `2.5` (the bounds themselves are
dropped); `detectVehicles` returns exactly the bounding regions of the
kept contours. -/
theorem keepVehicle_strict_bounds (c : ContourData) (contours : List ContourData) :
    (keepVehicle c = true ↔
      (c.area > 1000 ∧ 0.5 < c.rect.width / c.rect.height ∧ c.rect.width / c.rect.height < 2.5)) ∧
    detectVehicles contours =
      (contours.filter keepVehicle).map
        (fun c => { x := c.rect.x, y := c.rect.y, width := c.rect.width,
                    height := c.rect.height, area := c.area }) := by
  constructor
  · simp only [keepVehicle, Bool.and_eq_true, decide_eq_true_eq]
  · rfl

/-! ## Plate extractor (`detectNumberPlate`, numberPlateDetection utils)

The OCR capability (tesseract) is external; the embedding starts from
the recognized text and models the pattern
`[A-Z]{2}\s*\d{2}\s*[A-Z]{2}\s*\d{4}` with `String.match` semantics:
leftmost match, greedy whitespace runs.  Greediness is exact here
because whitespace is disjoint from the letter and digit classes.  Of
JavaScript's `\s` class the embedding covers the ASCII whitespace
characters; the claims only exercise the space character. -/

/-- The `[A-Z]` character class. -/
def isUpperAlpha (c : Char) : Bool := 'A' ≤ c && c ≤ 'Z'

/-- The `\d` character class. -/
def isPlateDigit (c : Char) : Bool := '0' ≤ c && c ≤ '9'

/-- The ASCII part of the `\s` character class. -/
def isJsSpace (c : Char) : Bool :=
  c = ' ' || c = '\t' || c = '\n' || c = '\r' || c = '\x0b' || c = '\x0c'

/-- Consume exactly `n` characters satisfying `p`, returning the consumed
prefix and the rest, or `none` if fewer than `n` qualify. -/
def takeFixed (p : Char → Bool) : Nat → List Char → Option (List Char × List Char)
  | 0, s => some ([], s)
  | _ + 1, [] => none
  | n + 1, c :: s =>
    if p c then (takeFixed p n s).map (fun m => (c :: m.1, m.2)) else none

/-- Match the plate pattern anchored at the head of `s`, returning the
matched characters. -/
def matchPlateAt (s : List Char) : Option (List Char) :=
  match takeFixed isUpperAlpha 2 s with
  | none => none
  | some (m1, r1) =>
    let sp1 := r1.takeWhile isJsSpace
    match takeFixed isPlateDigit 2 (r1.dropWhile isJsSpace) with
    | none => none
    | some (m2, r2) =>
      let sp2 := r2.takeWhile isJsSpace
      match takeFixed isUpperAlpha 2 (r2.dropWhile isJsSpace) with
      | none => none
      | some (m3, r3) =>
        let sp3 := r3.takeWhile isJsSpace
        match takeFixed isPlateDigit 4 (r3.dropWhile isJsSpace) with
        | none => none
        | some (m4, _) => some (m1 ++ sp1 ++ m2 ++ sp2 ++ m3 ++ sp3 ++ m4)

/-- Leftmost match of the plate pattern in the text, if any. -/
def firstPlateMatch : List Char → Option (List Char)
  | [] => none
  | c :: s =>
    match matchPlateAt (c :: s) with
    | some m => some m
    | none => firstPlateMatch s

/-- Embedding of `detectNumberPlate`: the first match of the plate
pattern in the recognized text, or `null` when there is none. -/
def detectNumberPlate (text : String) : Option String :=
  (firstPlateMatch text.toList).map List.asString

/-! ## Fine calculator (`getChallanAmount`, challanUtils; `calculateFine`,
numberPlateDetection utils) -/

/-- Modelled from the spec: the enumerated violation-type keys of the
configuration table `challanData.json`, which is not present under the
source tree; the enumeration covers the no-entry-zone violation the
pipeline emits and the other keys the source mentions. -/
inductive ViolationType where
  | noEntryZone
  | speeding
  | redLight
deriving DecidableEq, Repr

/-- A violation lookup entry: a fine amount and a description. -/
structure ViolationInfo where
  amount : ℚ
  description : String
deriving DecidableEq, Repr

/-- A vehicle lookup entry: a base fine amount and a description. -/
structure VehicleInfo where
  baseAmount : ℚ
  description : String
deriving DecidableEq, Repr

/-- Modelled from the spec: the shape of the `challanData.json`
configuration (violation and vehicle lookup tables); the file itself is
not present under the source tree, so its numeric contents are a
parameter. -/
structure ChallanConfig where
  violationTypes : ViolationType → ViolationInfo
  vehicleTypes : VehicleType → VehicleInfo

/-- Embedding of `getChallanAmount` (challanUtils): the violation
amount plus the vehicle base amount, looked up in the configuration. -/
def getChallanAmount (cfg : ChallanConfig) (violationType : ViolationType) (vehicleType : VehicleType) : ℚ :=
  let violationAmount := (cfg.violationTypes violationType).amount
  let vehicleBaseAmount := (cfg.vehicleTypes vehicleType).baseAmount
  violationAmount + vehicleBaseAmount

/-- A sequence of fine-calculator calls, evaluated in order. -/
def runChallanAmountCalls (cfg : ChallanConfig) (calls : List (ViolationType × VehicleType)) : List ℚ :=
  calls.map (fun q => getChallanAmount cfg q.1 q.2)

/-- C9: for every enumerated pair the fine calculator returns exactly
`violationLookup[v].amount + vehicleLookup[t].baseAmount`, and as a pure
function its result is independent of prior calls: appending a call to
any call sequence appends exactly that value. -/
theorem getChallanAmount_additive_pure (cfg : ChallanConfig) (v : ViolationType)
    (t : VehicleType) (pre : List (ViolationType × VehicleType)) :
    getChallanAmount cfg v t =
      (cfg.violationTypes v).amount + (cfg.vehicleTypes t).baseAmount ∧
    runChallanAmountCalls cfg (pre ++ [(v, t)]) =
      runChallanAmountCalls cfg pre ++ [getChallanAmount cfg v t] := by
  exact ⟨rfl, by simp [runChallanAmountCalls]⟩

/-- Embedding of `calculateFine` (numberPlateDetection utils): the
hardcoded `baseFines` object keyed by the vehicle-type tag.  The
source's `|| 1000` fallback for unknown string keys is unreachable over
the five tags the classifier returns. -/
def calculateFine (vehicleType : VehicleType) : ℚ :=
  match vehicleType with
  | .Motorcycle => 500
  | .Car => 1000
  | .Van => 1500
  | .Bus => 2000
  | .Truck => 2500

/-! ## Automatic challan creation (`processVehicleFrame`,
numberPlateDetection utils) -/

/-- Challan payment status. -/
inductive ChallanStatus where
  | pending
  | paid
deriving DecidableEq, Repr

/-- The frame passed to `processVehicleFrame` (its pixel width and
height feed the bounding box). -/
structure ImageData where
  width : ℚ
  height : ℚ
deriving DecidableEq, Repr

/-- The challan document written by `processVehicleFrame`'s `addDoc`
call (the store-assigned id is external). -/
structure NewChallan where
  vehicleNumber : String
  vehicleType : VehicleType
  location : String
  amount : ℚ
  status : ChallanStatus
  violationType : ViolationType
  dimensions : Dimensions
deriving DecidableEq, Repr

/-- Embedding of `processVehicleFrame`: plate extraction (over the OCR
capability's recognized text `ocrText`), dimension estimation from the
frame size, classification, `calculateFine`, and the created challan
document; `none` when no plate is found. -/
def processVehicleFrame (ocrText : String) (img : ImageData) (location : String)
    (cameraParams : CameraParameters) : Option NewChallan :=
  match detectNumberPlate ocrText with
  | none => none
  | some numberPlate =>
    let boundingBox : BoundingBox := { width := img.width, height := img.height }
    let dimensions := calculateVehicleDimensions boundingBox cameraParams
    let vehicleType := classifyVehicleType dimensions
    let fineAmount := calculateFine vehicleType
    some { vehicleNumber := numberPlate, vehicleType := vehicleType, location := location,
           amount := fineAmount, status := .pending, violationType := .noEntryZone,
           dimensions := dimensions }

/-- `processVehicleFrame` as a map over the plate-extraction outcome. -/
theorem processVehicleFrame_eq (ocrText : String) (img : ImageData) (location : String)
    (p : CameraParameters) :
    processVehicleFrame ocrText img location p =
      (detectNumberPlate ocrText).map (fun numberPlate =>
        let dimensions := calculateVehicleDimensions ⟨img.width, img.height⟩ p
        { vehicleNumber := numberPlate, vehicleType := classifyVehicleType dimensions,
          location := location, amount := calculateFine (classifyVehicleType dimensions),
          status := .pending, violationType := .noEntryZone, dimensions := dimensions }) := by
  unfold processVehicleFrame
  cases detectNumberPlate ocrText <;> rfl

/-- C5: the pattern accepts `"AB12CD3456"` and `"AB 12 CD 3456"`,
rejects `"AB1CD345"`, uses the first of multiple matches, and a
no-plate outcome makes the frame cycle create no challan. -/
theorem detectNumberPlate_pattern_spec :
    detectNumberPlate "AB12CD3456" = some "AB12CD3456" ∧
    detectNumberPlate "AB 12 CD 3456" = some "AB 12 CD 3456" ∧
    detectNumberPlate "AB1CD345" = none ∧
    detectNumberPlate "AB12CD3456 XY99ZW1111" = some "AB12CD3456" ∧
    ∀ (ocrText : String) (img : ImageData) (location : String) (p : CameraParameters),
      detectNumberPlate ocrText = none → processVehicleFrame ocrText img location p = none := by
  refine ⟨by decide, by decide, by decide, by decide, ?_⟩
  intro ocrText img location p h
  unfold processVehicleFrame
  rw [h]

/-- Witness for C5's no-plate conjunct at a concrete garbage text. -/
theorem detectNumberPlate_pattern_spec_witness :
    processVehicleFrame "no plate here" ⟨640, 480⟩ "Main Street No-Entry Zone" ⟨35, 23.5, 10000⟩ = none :=
  detectNumberPlate_pattern_spec.2.2.2.2 "no plate here" ⟨640, 480⟩
    "Main Street No-Entry Zone" ⟨35, 23.5, 10000⟩ (by decide)

/-- The C3 claim as stated: every challan created by the automatic path
has the no-entry-zone violation, pending status, and an amount equal to
the additive lookup `violationLookup[v].amount + vehicleLookup[t].baseAmount`
of the configuration. -/
def autoChallanAdditiveAmount : Prop :=
  ∀ (cfg : ChallanConfig) (ocrText : String) (img : ImageData) (location : String)
    (p : CameraParameters) (ch : NewChallan),
    processVehicleFrame ocrText img location p = some ch →
    ch.violationType = .noEntryZone ∧ ch.status = .pending ∧
    ch.amount = getChallanAmount cfg ch.violationType ch.vehicleType

/-- A configuration with all lookup amounts zero (one admissible value of
the spec-modelled `challanData.json` parameter). -/
def zeroChallanConfig : ChallanConfig :=
  { violationTypes := fun _ => { amount := 0, description := "" },
    vehicleTypes := fun _ => { baseAmount := 0, description := "" } }

/-- The challan document created by the automatic path for OCR text
`"AB12CD3456"`, a 1×1 frame and unit camera parameters. -/
def sampleFrameChallan : NewChallan :=
  let dimensions := calculateVehicleDimensions ⟨1, 1⟩ ⟨1, 1, 1⟩
  { vehicleNumber := "AB12CD3456", vehicleType := classifyVehicleType dimensions,
    location := "x", amount := calculateFine (classifyVehicleType dimensions),
    status := .pending, violationType := .noEntryZone, dimensions := dimensions }

/-- The automatic path at the sample input creates `sampleFrameChallan`. -/
theorem processVehicleFrame_sample :
    processVehicleFrame "AB12CD3456" ⟨1, 1⟩ "x" ⟨1, 1, 1⟩ = some sampleFrameChallan := by
  rw [processVehicleFrame_eq,
    show detectNumberPlate "AB12CD3456" = some "AB12CD3456" from by decide]
  rfl

/-- Counterexample to C3 as stated: with all lookup amounts zero the
additive lookup gives 0, but the automatic path charges
`calculateFine` of the vehicle type, which is never 0 — the amount is
computed by the hardcoded per-vehicle-type table, not via the §4.6
lookup. -/
theorem processVehicleFrame_amount_not_additive : ¬ autoChallanAdditiveAmount := by
  intro h
  obtain ⟨-, -, h3⟩ :=
    h zeroChallanConfig "AB12CD3456" ⟨1, 1⟩ "x" ⟨1, 1, 1⟩ sampleFrameChallan
      processVehicleFrame_sample
  simp only [sampleFrameChallan, getChallanAmount, zeroChallanConfig] at h3
  rw [add_zero] at h3
  cases hv : classifyVehicleType (calculateVehicleDimensions ⟨1, 1⟩ ⟨1, 1, 1⟩) <;>
    rw [hv] at h3 <;> simp only [calculateFine] at h3 <;> norm_num at h3

/-- C3 amended: every challan created by the automatic path has
`violationType` fixed to the no-entry-zone violation, initial status
pending, and an amount equal to `calculateFine` of its vehicle type —
the hardcoded per-vehicle-type table, which does not consult the
violation lookup — with the vehicle type classified from the estimated
frame dimensions. -/
theorem processVehicleFrame_auto_challan_shape (ocrText : String) (img : ImageData)
    (location : String) (p : CameraParameters) (ch : NewChallan)
    (h : processVehicleFrame ocrText img location p = some ch) :
    ch.violationType = .noEntryZone ∧ ch.status = .pending ∧
    ch.amount = calculateFine ch.vehicleType ∧
    ch.vehicleType = classifyVehicleType (calculateVehicleDimensions ⟨img.width, img.height⟩ p) := by
  rw [processVehicleFrame_eq] at h
  cases hdet : detectNumberPlate ocrText <;> rw [hdet] at h
  · exact absurd h (by simp)
  · simp only [Option.map_some', Option.some.injEq] at h
    subst h
    exact ⟨rfl, rfl, rfl, rfl⟩

/-- Witness for C3's amended claim at the sample input. -/
theorem processVehicleFrame_auto_challan_shape_witness :
    sampleFrameChallan.violationType = .noEntryZone ∧
    sampleFrameChallan.status = .pending ∧
    sampleFrameChallan.amount = calculateFine sampleFrameChallan.vehicleType :=
  let h := processVehicleFrame_auto_challan_shape "AB12CD3456" ⟨1, 1⟩ "x" ⟨1, 1, 1⟩
    sampleFrameChallan processVehicleFrame_sample
  ⟨h.1, h.2.1, h.2.2.1⟩

/-! ## Challan lifecycle (`payChallan`, challanUtils; `handlePayment`,
ChallanPayment page)

The Firestore collection is modelled as an association list keyed by
document id; `updateDoc` merges fields into an existing document and
fails when the id is absent, which is Firestore's `updateDoc`
behaviour. -/

/-- Payment methods offered by the payment page. -/
inductive PaymentMethod where
  | card
  | wallet
deriving DecidableEq, Repr

/-- A stored challan document. -/
structure ChallanDoc where
  vehicleNumber : String
  location : String
  timestamp : ℕ
  amount : ℚ
  status : ChallanStatus
  vehicleType : VehicleType
  violationType : ViolationType
  userId : String
  paidAt : Option ℕ
  paymentMethod : Option PaymentMethod
deriving DecidableEq, Repr

/-- The record store: documents keyed by id. -/
abbrev ChallanStore := List (String × ChallanDoc)

/-- Look a document up by id (the model of `getDoc`). -/
def findChallan (store : ChallanStore) (id : String) : Option ChallanDoc :=
  (store.find? (fun kv => kv.1 == id)).map Prod.snd

/-- Firestore `updateDoc`: merge `f` into the document at `id`, failing
when no such document exists. -/
def updateDoc (store : ChallanStore) (id : String) (f : ChallanDoc → ChallanDoc) :
    Except String ChallanStore :=
  match findChallan store id with
  | none => .error "not-found"
  | some _ => .ok (store.map fun kv => if kv.1 == id then (kv.1, f kv.2) else kv)

/-- Embedding of `payChallan` (challanUtils): unconditionally set
`status := paid` and `paidAt := now` on the document. -/
def payChallan (store : ChallanStore) (challanId : String) (now : ℕ) :
    Except String ChallanStore :=
  updateDoc store challanId (fun c => { c with status := .paid, paidAt := some now })

/-- Embedding of `handlePayment` (ChallanPayment page): unconditionally
set `status := paid`, `paidAt := now` and the chosen payment method. -/
def handlePayment (store : ChallanStore) (challanId : String)
    (paymentMethod : PaymentMethod) (now : ℕ) : Except String ChallanStore :=
  updateDoc store challanId
    (fun c => { c with status := .paid, paidAt := some now,
                       paymentMethod := some paymentMethod })

/-- The C2 claim as stated: a payment attempt on an already-paid
document fails explicitly, and one on a nonexistent document fails
explicitly. -/
def paymentTransitionSafe : Prop :=
  ∀ (store : ChallanStore) (id : String) (now : ℕ),
    (∀ c, findChallan store id = some c → c.status = .paid →
      (payChallan store id now).isOk = false) ∧
    (findChallan store id = none → (payChallan store id now).isOk = false)

/-- A document that is already paid. -/
def paidChallanDoc : ChallanDoc :=
  { vehicleNumber := "AB 12 CD 3456", location := "Main Street", timestamp := 50,
    amount := 1500, status := .paid, vehicleType := .Car,
    violationType := .noEntryZone, userId := "user123",
    paidAt := some 100, paymentMethod := some .card }

/-- A store holding only the already-paid document, under id `"1"`. -/
def paidStore : ChallanStore := [("1", paidChallanDoc)]

/-- Counterexample to C2 as stated: paying the already-paid document
`"1"` succeeds instead of failing. -/
theorem payChallan_already_paid_succeeds : ¬ paymentTransitionSafe := by
  intro h
  have h1 := (h paidStore "1" 200).1 paidChallanDoc rfl rfl
  have h2 : (payChallan paidStore "1" 200).isOk = true := rfl
  rw [h1] at h2
  exact Bool.false_ne_true h2

/-- Updating a mapped store rewrites exactly the document at `id`. -/
theorem findChallan_update (store : ChallanStore) (id : String)
    (f : ChallanDoc → ChallanDoc) (c : ChallanDoc)
    (h : findChallan store id = some c) :
    findChallan (store.map fun kv => if kv.1 == id then (kv.1, f kv.2) else kv) id
      = some (f c) := by
  induction store with
  | nil => simp [findChallan] at h
  | cons kv rest ih =>
    rcases kv with ⟨k, d⟩
    by_cases hk : (k == id) = true
    · simp only [findChallan, List.find?, hk, Option.map_some', Option.some.injEq] at h
      subst h
      simp [findChallan, List.find?, hk]
    · simp only [findChallan, List.find?, hk] at h
      have hrec := ih h
      simp only [findChallan, List.find?, List.map_cons, hk, if_false,
        Bool.false_eq_true] at hrec ⊢
      exact hrec

/-- C2 amended: `payChallan` transitions any existing document to
`Paid` unconditionally — on an already-paid document it succeeds again
and overwrites `paidAt` (and `handlePayment` additionally overwrites
`paymentMethod`); only a nonexistent id fails, explicitly and with no
state change. -/
theorem payChallan_unconditional_transition (store : ChallanStore) (id : String)
    (now : ℕ) (method : PaymentMethod) :
    (findChallan store id = none →
      payChallan store id now = .error "not-found" ∧
      handlePayment store id method now = .error "not-found") ∧
    (∀ c, findChallan store id = some c →
      ∃ s₁, payChallan store id now = .ok s₁ ∧
        findChallan s₁ id = some { c with status := .paid, paidAt := some now } ∧
      ∃ s₂, handlePayment store id method now = .ok s₂ ∧
        findChallan s₂ id = some { c with status := .paid, paidAt := some now,
                                          paymentMethod := some method }) := by
  constructor
  · intro hnone
    constructor
    · simp only [payChallan, updateDoc, hnone]
    · simp only [handlePayment, updateDoc, hnone]
  · intro c hc
    refine ⟨_, ?_,
      findChallan_update store id
        (fun c => { c with status := .paid, paidAt := some now }) c hc, _, ?_,
      findChallan_update store id
        (fun c => { c with status := .paid, paidAt := some now,
                           paymentMethod := some method }) c hc⟩
    · simp only [payChallan, updateDoc, hc]
    · simp only [handlePayment, updateDoc, hc]

/-- Witness for C2's amended claim: re-paying the already-paid document
succeeds and overwrites `paidAt` (and `handlePayment` the method). -/
theorem payChallan_unconditional_transition_witness :
    ∃ s₁, payChallan paidStore "1" 200 = .ok s₁ ∧
      findChallan s₁ "1" = some { paidChallanDoc with status := .paid, paidAt := some 200 } ∧
    ∃ s₂, handlePayment paidStore "1" .wallet 200 = .ok s₂ ∧
      findChallan s₂ "1" = some { paidChallanDoc with status := .paid, paidAt := some 200,
                                                      paymentMethod := some .wallet } :=
  (payChallan_unconditional_transition paidStore "1" 200 .wallet).2 paidChallanDoc rfl

/-! ## Statistics aggregator (`fetchStatistics`, AdminDashboard page)

`onSnapshot` delivers the full current record set on every observed
change; the handler recomputes the aggregate by iterating all records. -/

/-- The derived statistics aggregate. -/
structure Statistics where
  totalChallans : ℕ
  pendingChallans : ℕ
  paidChallans : ℕ
  totalRevenue : ℚ
  violationStats : ViolationType → ℕ
  vehicleTypeStats : VehicleType → ℕ

/-- Modelled from the spec: the baseline statistics object
`vehicleData.statistics` spread into the accumulator (the file
`vehicleData.json` is not present under the source tree); per the
spec's recompute-from-scratch contract all its counters are zero. -/
def baselineStatistics : Statistics :=
  { totalChallans := 0, pendingChallans := 0, paidChallans := 0,
    totalRevenue := 0, violationStats := fun _ => 0, vehicleTypeStats := fun _ => 0 }

/-- The body of the `querySnapshot.forEach` loop in `fetchStatistics`:
count one record into the accumulator. -/
def countChallan (stats : Statistics) (challan : ChallanDoc) : Statistics :=
  let stats := { stats with totalChallans := stats.totalChallans + 1 }
  let stats :=
    if challan.status = .paid then
      { stats with paidChallans := stats.paidChallans + 1,
                   totalRevenue := stats.totalRevenue + challan.amount }
    else
      { stats with pendingChallans := stats.pendingChallans + 1 }
  { stats with
    violationStats := Function.update stats.violationStats challan.violationType
      (stats.violationStats challan.violationType + 1),
    vehicleTypeStats := Function.update stats.vehicleTypeStats challan.vehicleType
      (stats.vehicleTypeStats challan.vehicleType + 1) }

/-- Embedding of `fetchStatistics`'s snapshot handler: full scan of the
current record set starting from the baseline. -/
def fetchStatistics (docs : List ChallanDoc) : Statistics :=
  docs.foldl countChallan baselineStatistics

/-- Is a record paid? (the loop's branch condition). -/
def isPaidDoc (c : ChallanDoc) : Bool := decide (c.status = .paid)

theorem countChallan_totalChallans (stats : Statistics) (c : ChallanDoc) :
    (countChallan stats c).totalChallans = stats.totalChallans + 1 := by
  simp only [countChallan]
  split_ifs <;> rfl

theorem countChallan_paidChallans (stats : Statistics) (c : ChallanDoc) :
    (countChallan stats c).paidChallans =
      if isPaidDoc c then stats.paidChallans + 1 else stats.paidChallans := by
  simp only [countChallan, isPaidDoc, decide_eq_true_eq]
  split_ifs <;> rfl

theorem countChallan_pendingChallans (stats : Statistics) (c : ChallanDoc) :
    (countChallan stats c).pendingChallans =
      if isPaidDoc c then stats.pendingChallans else stats.pendingChallans + 1 := by
  simp only [countChallan, isPaidDoc, decide_eq_true_eq]
  split_ifs <;> rfl

theorem countChallan_totalRevenue (stats : Statistics) (c : ChallanDoc) :
    (countChallan stats c).totalRevenue =
      if isPaidDoc c then stats.totalRevenue + c.amount else stats.totalRevenue := by
  simp only [countChallan, isPaidDoc, decide_eq_true_eq]
  split_ifs <;> rfl

/-- The full-scan fold, from an arbitrary accumulator. -/
theorem fetchStatistics_foldl (docs : List ChallanDoc) (stats : Statistics) :
    (docs.foldl countChallan stats).totalChallans = stats.totalChallans + docs.length ∧
    (docs.foldl countChallan stats).paidChallans =
      stats.paidChallans + (docs.filter isPaidDoc).length ∧
    (docs.foldl countChallan stats).pendingChallans =
      stats.pendingChallans + (docs.filter (fun c => !isPaidDoc c)).length ∧
    (docs.foldl countChallan stats).totalRevenue =
      stats.totalRevenue + ((docs.filter isPaidDoc).map ChallanDoc.amount).sum := by
  induction docs generalizing stats with
  | nil => simp
  | cons c rest ih =>
    obtain ⟨ih1, ih2, ih3, ih4⟩ := ih (countChallan stats c)
    simp only [List.foldl_cons, List.filter_cons, List.length_cons] at *
    refine ⟨?_, ?_, ?_, ?_⟩
    · rw [ih1, countChallan_totalChallans]; omega
    · rw [ih2, countChallan_paidChallans]
      by_cases hc : isPaidDoc c <;> (simp [hc]; try omega)
    · rw [ih3, countChallan_pendingChallans]
      by_cases hc : isPaidDoc c <;> (simp [hc]; try omega)
    · rw [ih4, countChallan_totalRevenue]
      by_cases hc : isPaidDoc c <;> (simp [hc]; try ring)

/-- Splitting a scan by the paid flag covers every record exactly once. -/
theorem filter_paid_length_split (docs : List ChallanDoc) :
    (docs.filter isPaidDoc).length + (docs.filter (fun c => !isPaidDoc c)).length
      = docs.length := by
  induction docs with
  | nil => rfl
  | cons c rest ih =>
    simp only [List.filter_cons]
    by_cases hc : isPaidDoc c <;> simp [hc] <;> omega

/-- C4: recomputing the statistics over a record set of `N` records of
which `M` are paid gives `totalChallans = N`, `paidChallans = M`,
`pendingChallans = N - M`, and `totalRevenue` the sum of `amount` over
the paid records; the aggregate is the full scan of the record set. -/
theorem fetchStatistics_recompute_spec (docs : List ChallanDoc) (N M : ℕ)
    (hN : docs.length = N) (hM : (docs.filter isPaidDoc).length = M) :
    (fetchStatistics docs).totalChallans = N ∧
    (fetchStatistics docs).paidChallans = M ∧
    (fetchStatistics docs).pendingChallans = N - M ∧
    (fetchStatistics docs).totalRevenue =
      ((docs.filter isPaidDoc).map ChallanDoc.amount).sum := by
  obtain ⟨h1, h2, h3, h4⟩ := fetchStatistics_foldl docs baselineStatistics
  have hsplit := filter_paid_length_split docs
  unfold fetchStatistics
  refine ⟨?_, ?_, ?_, ?_⟩
  · rw [h1]; simp [baselineStatistics, hN]
  · rw [h2]; simp [baselineStatistics, hM]
  · rw [h3]; simp only [baselineStatistics, Nat.zero_add]; omega
  · rw [h4]; simp [baselineStatistics]

/-- A pending document used by the statistics witness. -/
def samplePendingDoc : ChallanDoc :=
  { vehicleNumber := "XY 45 ZW 6789", location := "School Zone", timestamp := 60,
    amount := 2000, status := .pending, vehicleType := .Truck,
    violationType := .noEntryZone, userId := "user456",
    paidAt := none, paymentMethod := none }

/-- Witness for C4 on a two-record set with one paid record. -/
theorem fetchStatistics_recompute_spec_witness :
    (fetchStatistics [samplePendingDoc, paidChallanDoc]).totalChallans = 2 ∧
    (fetchStatistics [samplePendingDoc, paidChallanDoc]).paidChallans = 1 ∧
    (fetchStatistics [samplePendingDoc, paidChallanDoc]).pendingChallans = 2 - 1 ∧
    (fetchStatistics [samplePendingDoc, paidChallanDoc]).totalRevenue =
      (([samplePendingDoc, paidChallanDoc].filter isPaidDoc).map ChallanDoc.amount).sum :=
  fetchStatistics_recompute_spec [samplePendingDoc, paidChallanDoc] 2 1 rfl rfl

/-! ## Capture controller (VehicleDetection page)

Event-loop model of the capture session.  `processFrame` is async: its
synchronous prefix sets `isProcessing := true` and its `finally` block
clears it, so starting a cycle and finishing one are separate events; a
cycle start increments the number of in-flight cycles and a finish
decrements it.  The `setInterval` callback installed by `toggleWebcam`
invokes `processFrame` whenever the webcam ref is present — it does not
consult `isProcessing`.  The manual capture and process-video buttons
are rendered with `disabled={isProcessing}`, so a click while a cycle
is in flight does nothing. -/

/-- Component state of the VehicleDetection page (camera permission
granted is assumed, and the webcam ref is present while active). -/
structure SessionState where
  cameraPermission : Bool
  isWebcamActive : Bool
  intervalSet : Bool
  isProcessing : Bool
  inFlight : ℕ
deriving DecidableEq, Repr

/-- Session events: the start/stop toggle, a 2000 ms timer tick, a
manual capture click, and completion of one `processFrame` cycle. -/
inductive SessionEvent where
  | toggleWebcam
  | timerTick
  | captureClick
  | cycleFinish
deriving DecidableEq, Repr

/-- One step of the session's event loop. -/
def step (s : SessionState) (e : SessionEvent) : SessionState :=
  match e with
  | .toggleWebcam =>
    if !s.isWebcamActive && !s.cameraPermission then s
    else
      let s' :=
        if s.isWebcamActive && s.intervalSet then { s with intervalSet := false }
        else if !s.isWebcamActive then { s with intervalSet := true }
        else s
      { s' with isWebcamActive := !s.isWebcamActive }
  | .timerTick =>
    if s.intervalSet then { s with isProcessing := true, inFlight := s.inFlight + 1 }
    else s
  | .captureClick =>
    if s.isProcessing then s
    else { s with isProcessing := true, inFlight := s.inFlight + 1 }
  | .cycleFinish =>
    if s.inFlight = 0 then s
    else { s with isProcessing := false, inFlight := s.inFlight - 1 }

/-- The state before any event: permission granted, camera off. -/
def initialSessionState : SessionState :=
  { cameraPermission := true, isWebcamActive := false, intervalSet := false,
    isProcessing := false, inFlight := 0 }

/-- Run a session from the initial state over an event trace. -/
def runSession (es : List SessionEvent) : SessionState :=
  es.foldl step initialSessionState

/-- The C7 claim as stated: at most one detection cycle is ever in
flight, whatever the event trace. -/
def singleFlightGuard : Prop :=
  ∀ es : List SessionEvent, (runSession es).inFlight ≤ 1

/-- Counterexample to C7 as stated: start the camera, then let two
timer ticks arrive before any cycle finishes — the second tick is not
skipped and two cycles are in flight. -/
theorem captureSession_overlapping_ticks : ¬ singleFlightGuard := by
  intro h
  have hle := h [.toggleWebcam, .timerTick, .timerTick]
  have h2 : (runSession [.toggleWebcam, .timerTick, .timerTick]).inFlight = 2 := by decide
  rw [h2] at hle
  omega

/-- C7 amended: a manual capture arriving while a cycle is in flight is
rejected (the click is a no-op), but a timer tick while the interval is
installed always starts another cycle — it is not skipped when one is
already running. -/
theorem captureSession_guard_behavior (s : SessionState) :
    (s.isProcessing = true → step s .captureClick = s) ∧
    (s.intervalSet = true →
      (step s .timerTick).inFlight = s.inFlight + 1 ∧
      (step s .timerTick).isProcessing = true) := by
  constructor
  · intro h
    simp [step, h]
  · intro h
    simp [step, h]

/-- Witness for C7's amended claim in the state reached after starting
the camera and one tick (a cycle is in flight). -/
theorem captureSession_guard_behavior_witness :
    step (runSession [.toggleWebcam, .timerTick]) .captureClick
      = runSession [.toggleWebcam, .timerTick] ∧
    (step (runSession [.toggleWebcam, .timerTick]) .timerTick).inFlight
      = (runSession [.toggleWebcam, .timerTick]).inFlight + 1 :=
  ⟨(captureSession_guard_behavior (runSession [.toggleWebcam, .timerTick])).1 (by decide),
   ((captureSession_guard_behavior (runSession [.toggleWebcam, .timerTick])).2 (by decide)).1⟩

end Exsel
